import Mathlib

/-
  Verification of the x402-payment demo repository.

  The repository is configuration and glue around an external pay-per-request
  HTTP challenge protocol.  The data model and the two protocol state machines
  (ResourceGate on the server, PayingFetcher on the client) are embedded below;
  the protocol engine itself lives in external libraries, so those two machines
  are modelled from the specification, while the constants, the route
  configuration and the content handler are translated from the repository
  sources (constants file and the API route file).
-/

/-! ## Data model -/

/-- One acceptable way to pay for a resource, in the wire format of the
challenge body: scheme, network, recipient, asset, atomic amount as a decimal
string, and an open map of scheme-specific extra parameters. -/
structure PaymentRequirement where
  scheme : String
  network : String
  payTo : String
  asset : String
  maxAmountRequired : String
  extra : List (String × String)
deriving DecidableEq, Repr

/-- The 402 response body: the ordered list of acceptable requirements plus a
human-readable description of the resource. -/
structure PaymentChallenge where
  accepts : List PaymentRequirement
  description : String
deriving DecidableEq, Repr

/-- Client-produced artifact bound to exactly one PaymentRequirement: the
scheme identifier, the signed payload (opaque to the gate), the payer address
and the requirement it claims to satisfy. -/
structure PaymentProof where
  scheme : String
  payload : String
  payer : String
  requirement : PaymentRequirement
deriving DecidableEq, Repr

/-- Outcome of settling a verified proof. -/
structure SettlementResult where
  success : Bool
  reference : Option String
  reason : Option String
deriving DecidableEq, Repr

/-- Reasons a gate rejects a request, following the error taxonomy of the
protocol (NoProofPresented is first contact, not a failure). -/
inductive GateFailure where
  | noProofPresented
  | invalidProof
  | unsupportedScheme
  | requirementMismatch
  | alreadySettled
  | verificationFailed
deriving DecidableEq, Repr

/-- Body of an HTTP response in the model: either a payment challenge
(with an optional failure reason in the metadata) or content, rendered as a
list of JSON field-value pairs. -/
inductive ResponseBody where
  | payment (challenge : PaymentChallenge) (reason : Option GateFailure)
  | content (fields : List (String × String))
deriving DecidableEq, Repr

/-- An HTTP response: status, body, and optional settlement metadata attached
by the gate after a successful settlement attempt. -/
structure Response where
  status : Nat
  body : ResponseBody
  settlement : Option SettlementResult
deriving DecidableEq, Repr

/-- An HTTP request: target, method, and the optional proof-bearing header
(the encoded proof is opaque until decoded). -/
structure Request where
  url : String
  method : String
  proofHeader : Option String
deriving DecidableEq, Repr

/-! ## Configuration constants (from the constants source file) -/

/-- EIP-712 asset metadata for USDC on Base Sepolia. -/
structure AssetInfo where
  address : String
  name : String
  version : String
  chainId : Nat
  verifyingContract : String
  decimals : Nat
deriving DecidableEq, Repr

def USDC_ASSET_INFO : AssetInfo :=
  { address := "0x036CbD53842c5426634e7929541eC2318f3dCF7e"
    name := "USDC"
    version := "2"
    chainId := 84532
    verifyingContract := "0x036CbD53842c5426634e7929541eC2318f3dCF7e"
    decimals := 6 }

/-- Digits of a decimal string read as a natural number, most significant
first. -/
def digitsToNat (s : List Char) : Nat :=
  s.foldl (fun acc c => acc * 10 + (c.toNat - 48)) 0

/-- Modelled from the spec: the configuration-time decimal-to-atomic
conversion (the viem parseUnits library call, not present in the repository).
The spec requires decimal-to-atomic conversion to happen exactly once at
configuration time, producing an integer count of the asset's smallest unit.
The model covers non-negative decimal literals whose fractional part is no
longer than the decimal count, which includes the single configuration call
site. -/
def parseUnits (value : String) (decimals : Nat) : Nat :=
  let intPart := value.data.takeWhile (fun c => c != '.')
  let frac :=
    match value.data.dropWhile (fun c => c != '.') with
    | [] => []
    | _ :: r => r.takeWhile (fun c => c != '.')
  digitsToNat intPart * 10 ^ decimals +
    digitsToNat (frac.take decimals ++
      List.replicate (decimals - frac.length) '0')

/-- 0.1 USDC in atomic units, rendered as a decimal string at module load. -/
def VIDEO_PRICE_AMOUNT : String :=
  toString (parseUnits "0.1" USDC_ASSET_INFO.decimals)

def BASE_SEPOLIA_NETWORK_ID : String := "eip155:84532"

def PAYMENT_SCHEME : String := "exact"

def DEFAULT_RECIPIENT_ADDRESS : String :=
  "0x742d35Cc6634C0532925a3b844Bc454e4438f44e"

def DEFAULT_USDC_ASSET_ADDRESS : String :=
  "0x036CbD53842c5426634e7929541eC2318f3dCF7e"

/-- The fixed application content configuration. -/
structure VideoConfig where
  title : String
  videoId : String
  url : String
  successMessage : String
deriving DecidableEq, Repr

def APP_CONFIG_video : VideoConfig :=
  { title := "Rick Astley - Never Gonna Give You Up"
    videoId := "dQw4w9WgXcQ"
    url := "https://www.youtube.com/watch?v=dQw4w9WgXcQ"
    successMessage := "Thank you for your payment! Enjoy the video." }

/-! ## Route configuration (from the API route source file) -/

/-- JavaScript `env || fallback` selection: an unset variable or one set to the
empty string is falsy, so the fallback is used. -/
def jsOrDefault (env : Option String) (dflt : String) : String :=
  match env with
  | some s => if s = "" then dflt else s
  | none => dflt

/-- The single PaymentRequirement registered for the video route, as a
function of the two environment variables read at module load. -/
def videoRequirement (envRecipient envAsset : Option String) :
    PaymentRequirement :=
  { scheme := PAYMENT_SCHEME
    network := BASE_SEPOLIA_NETWORK_ID
    payTo := jsOrDefault envRecipient DEFAULT_RECIPIENT_ADDRESS
    asset := jsOrDefault envAsset DEFAULT_USDC_ASSET_ADDRESS
    maxAmountRequired := VIDEO_PRICE_AMOUNT
    extra := [("name", USDC_ASSET_INFO.name),
              ("version", USDC_ASSET_INFO.version),
              ("chainId", toString USDC_ASSET_INFO.chainId),
              ("verifyingContract", USDC_ASSET_INFO.verifyingContract)] }

def videoDescription : String := "Premium Video Content"

/-- The protected content handler of the video route: runs only after payment
is verified and returns the fixed JSON body from the application config. -/
def videoHandler (_req : Request) : Response :=
  { status := 200
    body := .content [("title", APP_CONFIG_video.title),
                      ("videoId", APP_CONFIG_video.videoId),
                      ("url", APP_CONFIG_video.url),
                      ("message", APP_CONFIG_video.successMessage)]
    settlement := none }

/-! ## ResourceGate (server middleware) -/

/-- Whether a proof's referenced requirement matches a configured requirement
exactly in scheme, network, asset, amount and recipient (the extension map is
not part of the match). -/
def reqMatches (claimed cfg : PaymentRequirement) : Bool :=
  claimed.scheme == cfg.scheme &&
  claimed.network == cfg.network &&
  claimed.asset == cfg.asset &&
  claimed.maxAmountRequired == cfg.maxAmountRequired &&
  claimed.payTo == cfg.payTo

/-- Server-side replay-prevention record: the proofs that have already been
settled, keyed by content. -/
structure ServerState where
  settled : List PaymentProof
deriving DecidableEq, Repr

/-- The observable outcome of one pass of the gate on one request: the
response, the number of handler invocations, the number of settlement
attempts and successes, and the updated replay-prevention state. -/
structure GateResult where
  response : Response
  handlerCalls : Nat
  settleAttempts : Nat
  settleSuccesses : Nat
  state : ServerState
deriving DecidableEq, Repr

/-- The 402 challenge response: the configured requirements plus description,
with an optional failure reason in the metadata. -/
def challengeResponse (accepts : List PaymentRequirement)
    (description : String) (reason : Option GateFailure) : Response :=
  { status := 402
    body := .payment { accepts := accepts, description := description } reason
    settlement := none }

/-- A gate pass that rejects without touching the handler or the state. -/
def gateReject (accepts : List PaymentRequirement) (description : String)
    (reason : GateFailure) (st : ServerState) : GateResult :=
  { response := challengeResponse accepts description (some reason)
    handlerCalls := 0
    settleAttempts := 0
    settleSuccesses := 0
    state := st }

/-- Modelled from the spec: the ResourceGate middleware (the external withX402
wrapper, not present in the repository).  One pass over an incoming request:
no or unparseable proof header yields the 402 challenge; a proof for an
unknown scheme, or whose referenced requirement matches no configured
requirement in scheme, network, asset, amount and recipient, is rejected 402;
an already-settled proof is rejected as a replay; facilitator verification
failure yields 402 and never the handler; on verification success the handler
runs exactly once, then one settlement attempt is made and its metadata
attached to the handler's response, which is returned even if settlement
fails. -/
def resourceGate (accepts : List PaymentRequirement) (description : String)
    (knownSchemes : List String)
    (decode : String → Option PaymentProof)
    (facVerify : PaymentProof → PaymentRequirement → Bool)
    (facSettle : PaymentProof → PaymentRequirement → SettlementResult)
    (handler : Request → Response)
    (st : ServerState) (req : Request) : GateResult :=
  match req.proofHeader with
  | none => gateReject accepts description .noProofPresented st
  | some raw =>
    match decode raw with
    | none => gateReject accepts description .invalidProof st
    | some proof =>
      if proof.scheme ∈ knownSchemes then
        if accepts.any (fun r => reqMatches proof.requirement r) = true then
          if proof ∈ st.settled then
            gateReject accepts description .alreadySettled st
          else if facVerify proof proof.requirement = true then
            let resp := handler req
            let sr := facSettle proof proof.requirement
            { response := { resp with settlement := some sr }
              handlerCalls := 1
              settleAttempts := 1
              settleSuccesses := if sr.success then 1 else 0
              state := if sr.success then { settled := proof :: st.settled }
                       else st }
          else gateReject accepts description .verificationFailed st
        else gateReject accepts description .requirementMismatch st
      else gateReject accepts description .unsupportedScheme st

/-- The conditions under which the gate accepts a request: a proof header is
present, decodes, references a registered scheme, matches a configured
requirement exactly, is not a replay, and passes facilitator verification. -/
def gateAccepts (accepts : List PaymentRequirement)
    (knownSchemes : List String) (decode : String → Option PaymentProof)
    (facVerify : PaymentProof → PaymentRequirement → Bool)
    (st : ServerState) (req : Request) : Prop :=
  ∃ raw proof, req.proofHeader = some raw ∧ decode raw = some proof ∧
    proof.scheme ∈ knownSchemes ∧
    accepts.any (fun r => reqMatches proof.requirement r) = true ∧
    proof ∉ st.settled ∧
    facVerify proof proof.requirement = true

/-! ## PayingFetcher (client wrapper) -/

/-- Classified client-side failures: every failing branch of the wrapper
produces one of these, never a silent fallthrough. -/
inductive FetchError where
  | unsupportedScheme
  | signerDeclined
  | invalidChallenge
deriving DecidableEq, Repr

instance : DecidableEq (Except FetchError Response) := fun x y =>
  match x, y with
  | .ok a, .ok b =>
    if h : a = b then .isTrue (h ▸ rfl)
    else .isFalse (fun hh => h (Except.ok.inj hh))
  | .ok _, .error _ => .isFalse (fun hh => Except.noConfusion hh)
  | .error _, .ok _ => .isFalse (fun hh => Except.noConfusion hh)
  | .error a, .error b =>
    if h : a = b then .isTrue (h ▸ rfl)
    else .isFalse (fun hh => h (Except.error.inj hh))

/-- The observable outcome of one invocation of the wrapper: the returned
response or a classified error, the number of network calls issued, and
whether a proof-bearing retry was issued. -/
structure FetchResult where
  outcome : Except FetchError Response
  calls : Nat
  retried : Bool
deriving DecidableEq, Repr

/-- Attach an encoded payment proof to a request, leaving method, target and
everything else unchanged. -/
def attachProof (req : Request) (proofRaw : String) : Request :=
  { req with proofHeader := some proofRaw }

/-- Modelled from the spec: the PayingFetcher client wrapper (the external
wrapFetchWithPayment library call, not present in the repository).  Issue the
request unmodified; a non-402 response is returned as-is.  On 402, parse the
challenge, select the first requirement whose scheme the registry supports
(failing with an unsupported-scheme error when none matches), ask the scheme
to construct a proof (the signer may decline), attach the proof to the
original request and issue exactly one retry, whose response is returned
verbatim. -/
def payingFetcher (net : Request → Response) (registry : List String)
    (buildProof : PaymentRequirement → Option String)
    (req : Request) : FetchResult :=
  let r1 := net req
  if r1.status = 402 then
    match r1.body with
    | .content _ => { outcome := .error .invalidChallenge, calls := 1, retried := false }
    | .payment c _ =>
      match c.accepts.find? (fun r => decide (r.scheme ∈ registry)) with
      | none => { outcome := .error .unsupportedScheme, calls := 1, retried := false }
      | some chosen =>
        match buildProof chosen with
        | none => { outcome := .error .signerDeclined, calls := 1, retried := false }
        | some praw =>
          { outcome := .ok (net (attachProof req praw)), calls := 2, retried := true }
  else { outcome := .ok r1, calls := 1, retried := false }

/-- Whether a response is a 402 whose challenge lists some requirement with a
scheme present in the client's registry. -/
def challengeSupported (r : Response) (registry : List String) : Bool :=
  r.status == 402 &&
    match r.body with
    | .payment c _ => c.accepts.any (fun q => decide (q.scheme ∈ registry))
    | .content _ => false

/-! ## Concrete instances used to exercise the theorems -/

/-- A request to the video route with no proof header (first contact). -/
def bareRequest : Request :=
  { url := "/api/video", method := "GET", proofHeader := none }

/-- A proof for the route's exact configured requirement. -/
def sampleProof : PaymentProof :=
  { scheme := "exact"
    payload := "signed-transfer-authorization"
    payer := "0x1111111111111111111111111111111111111111"
    requirement := videoRequirement none none }

/-- A proof referencing a requirement with a lower amount than configured. -/
def cheapProof : PaymentProof :=
  { sampleProof with
    requirement := { (videoRequirement none none) with maxAmountRequired := "50000" } }

/-- A request carrying an encoded proof for the configured requirement. -/
def payingRequest : Request :=
  { url := "/api/video", method := "GET", proofHeader := some "proof-1" }

/-- A request carrying an encoded proof for the cheaper requirement. -/
def cheapRequest : Request :=
  { url := "/api/video", method := "GET", proofHeader := some "proof-2" }

/-- A decoder recognising the two sample encodings. -/
def sampleDecode : String → Option PaymentProof := fun raw =>
  if raw = "proof-1" then some sampleProof
  else if raw = "proof-2" then some cheapProof
  else none

/-- A facilitator that accepts every proof as cryptographically valid. -/
def allowVerify : PaymentProof → PaymentRequirement → Bool := fun _ _ => true

/-- A facilitator whose settlement always succeeds. -/
def okSettle : PaymentProof → PaymentRequirement → SettlementResult :=
  fun _ _ => { success := true, reference := some "0xsettled", reason := none }

/-- A network that always answers with the route's 402 challenge. -/
def cexNet : Request → Response :=
  fun _ => challengeResponse [videoRequirement none none] videoDescription none

/-- A network that answers a 402 challenge for a scheme the client lacks. -/
def altNet : Request → Response :=
  fun _ => challengeResponse
    [{ (videoRequirement none none) with scheme := "superfluid" }]
    videoDescription none

/-- A network that immediately serves the content. -/
def contentNet : Request → Response := fun _ => videoHandler bareRequest

/-- A signer that declines every signing prompt. -/
def declineSigner : PaymentRequirement → Option String := fun _ => none

/-- A signer that produces an encoded proof for any requirement. -/
def okSigner : PaymentRequirement → Option String := fun _ => some "proof-1"

/-! ## Helper lemmas -/

/-- The fallback selection never returns the empty string when the fallback
itself is non-empty. -/
theorem jsOrDefault_ne_empty (env : Option String) (dflt : String)
    (hd : dflt ≠ "") : jsOrDefault env dflt ≠ "" := by
  cases env with
  | none => simpa [jsOrDefault] using hd
  | some s =>
    by_cases hs : s = ""
    · simpa [jsOrDefault, hs] using hd
    · simp [jsOrDefault, hs]

/-- The fallback selection returns the variable itself when it is set to a
non-empty string. -/
theorem jsOrDefault_of_ne (s dflt : String) (hs : s ≠ "") :
    jsOrDefault (some s) dflt = s := by
  simp [jsOrDefault, hs]

/-! ## Claims about the configuration -/

/-- C8: the configured price VIDEO_PRICE_AMOUNT is the string "100000",
exactly parseUnits "0.1" 6 rendered in decimal: an all-digit atomic-unit
integer with no decimal point, computed once at configuration time and carried
verbatim as the wire amount of the route's requirement for every environment
configuration. -/
theorem C8_video_price_amount :
    VIDEO_PRICE_AMOUNT = "100000" ∧
    VIDEO_PRICE_AMOUNT = toString (parseUnits "0.1" 6) ∧
    VIDEO_PRICE_AMOUNT.data.all Char.isDigit = true ∧
    VIDEO_PRICE_AMOUNT.data.contains '.' = false ∧
    ∀ envR envA,
      (videoRequirement envR envA).maxAmountRequired = VIDEO_PRICE_AMOUNT :=
  ⟨by decide, rfl, by decide, by decide, fun envR envA => rfl⟩

/-- C9: the protected handler is a constant function of the incoming request:
any two requests that reach it produce identical responses, namely status 200
with exactly the fixed title, videoId, url and message fields from the
application config, so no request data flows into the protected content. -/
theorem C9_handler_constant (r1 r2 : Request) :
    videoHandler r1 = videoHandler r2 ∧
    (videoHandler r1).status = 200 ∧
    (videoHandler r1).body =
      .content [("title", APP_CONFIG_video.title),
                ("videoId", APP_CONFIG_video.videoId),
                ("url", APP_CONFIG_video.url),
                ("message", APP_CONFIG_video.successMessage)] :=
  ⟨rfl, rfl, rfl⟩

/-- C10 counterexample: with the recipient environment variable set (to the
empty string) the route's payTo is the hard-coded default, not the variable's
value, so the claim that each field equals the environment variable whenever
the variable is set is false. -/
theorem C10_counterexample :
    ¬ (∀ s : String, (videoRequirement (some s) none).payTo = s) := by
  intro h
  exact absurd (h "") (by decide)

/-- C10 (amended): the route's single requirement always has non-empty payTo
and asset: each equals the corresponding environment variable when it is set
to a non-empty string, and the hard-coded default when the variable is unset
or set to the empty string, so the challenge never advertises an empty
recipient or asset. -/
theorem C10_route_fields_nonempty (envR envA : Option String) :
    (videoRequirement envR envA).payTo ≠ "" ∧
    (videoRequirement envR envA).asset ≠ "" ∧
    (∀ s, envR = some s → s ≠ "" → (videoRequirement envR envA).payTo = s) ∧
    (∀ s, envA = some s → s ≠ "" → (videoRequirement envR envA).asset = s) ∧
    (envR = none ∨ envR = some "" →
      (videoRequirement envR envA).payTo = DEFAULT_RECIPIENT_ADDRESS) ∧
    (envA = none ∨ envA = some "" →
      (videoRequirement envR envA).asset = DEFAULT_USDC_ASSET_ADDRESS) := by
  refine ⟨jsOrDefault_ne_empty envR _ (by decide),
          jsOrDefault_ne_empty envA _ (by decide),
          fun s hs hne => ?_, fun s hs hne => ?_, fun h => ?_, fun h => ?_⟩
  · simp only [videoRequirement, hs]
    exact jsOrDefault_of_ne s _ hne
  · simp only [videoRequirement, hs]
    exact jsOrDefault_of_ne s _ hne
  · rcases h with h | h <;> simp [videoRequirement, h, jsOrDefault]
  · rcases h with h | h <;> simp [videoRequirement, h, jsOrDefault]

/-- C10 witness: a concrete environment with the recipient variable set to a
non-empty address and the asset variable unset. -/
theorem C10_route_fields_nonempty_witness :
    (videoRequirement (some "0xAbCd") none).payTo = "0xAbCd" ∧
    (videoRequirement (some "0xAbCd") none).asset =
      DEFAULT_USDC_ASSET_ADDRESS ∧
    (videoRequirement (some "0xAbCd") none).payTo ≠ "" :=
  ⟨(C10_route_fields_nonempty (some "0xAbCd") none).2.2.1 "0xAbCd" rfl
      (by decide),
   (C10_route_fields_nonempty (some "0xAbCd") none).2.2.2.2.2 (Or.inl rfl),
   (C10_route_fields_nonempty (some "0xAbCd") none).1⟩

/-! ## Claims about the ResourceGate -/

/-- C2: for every configuration, a request with no proof header, or with a
header the decoder cannot parse, yields status 402 whose body is the payment
challenge listing exactly the configured requirements and the resource
description, with no handler invocation, no settlement attempt and unchanged
state. -/
theorem C2_no_proof_yields_challenge
    (accepts : List PaymentRequirement) (description : String)
    (knownSchemes : List String) (decode : String → Option PaymentProof)
    (facVerify : PaymentProof → PaymentRequirement → Bool)
    (facSettle : PaymentProof → PaymentRequirement → SettlementResult)
    (handler : Request → Response) (st : ServerState) (req : Request)
    (res : GateResult)
    (hres : res = resourceGate accepts description knownSchemes decode
      facVerify facSettle handler st req)
    (h : req.proofHeader = none ∨
      ∃ raw, req.proofHeader = some raw ∧ decode raw = none) :
    res.response.status = 402 ∧
    (∃ reason, res.response.body =
      .payment { accepts := accepts, description := description } reason) ∧
    res.handlerCalls = 0 ∧ res.settleAttempts = 0 ∧ res.state = st := by
  subst hres
  rcases h with h | ⟨raw, hraw, hdec⟩
  · simp [resourceGate, h, gateReject, challengeResponse]
  · simp [resourceGate, hraw, hdec, gateReject, challengeResponse]

/-- C2 witness: the first-contact request with no header against the route's
configuration. -/
theorem C2_no_proof_yields_challenge_witness :
    (resourceGate [videoRequirement none none] videoDescription ["exact"]
      sampleDecode allowVerify okSettle videoHandler ⟨[]⟩
      bareRequest).response.status = 402 ∧
    (resourceGate [videoRequirement none none] videoDescription ["exact"]
      sampleDecode allowVerify okSettle videoHandler ⟨[]⟩
      bareRequest).handlerCalls = 0 :=
  have h := C2_no_proof_yields_challenge [videoRequirement none none]
    videoDescription ["exact"] sampleDecode allowVerify okSettle videoHandler
    ⟨[]⟩ bareRequest _ rfl (Or.inl rfl)
  ⟨h.1, h.2.2.1⟩

/-- C3: a decoded proof whose referenced requirement matches no configured
requirement in scheme, network, asset, amount and recipient is rejected with
402 and the handler is never invoked, whatever verdict the facilitator's
verification would have given. -/
theorem C3_mismatched_requirement_rejected
    (accepts : List PaymentRequirement) (description : String)
    (knownSchemes : List String) (decode : String → Option PaymentProof)
    (facVerify : PaymentProof → PaymentRequirement → Bool)
    (facSettle : PaymentProof → PaymentRequirement → SettlementResult)
    (handler : Request → Response) (st : ServerState) (req : Request)
    (res : GateResult) (raw : String) (proof : PaymentProof)
    (hres : res = resourceGate accepts description knownSchemes decode
      facVerify facSettle handler st req)
    (hraw : req.proofHeader = some raw)
    (hdec : decode raw = some proof)
    (hmis : accepts.any (fun r => reqMatches proof.requirement r) = false) :
    res.response.status = 402 ∧ res.handlerCalls = 0 ∧
    res.settleAttempts = 0 ∧ res.state = st := by
  subst hres
  by_cases hks : proof.scheme ∈ knownSchemes <;>
    simp [resourceGate, hraw, hdec, hks, hmis, gateReject, challengeResponse]

/-- C3 witness: a proof for a 50000-unit requirement against the configured
100000-unit requirement, with a facilitator that would accept any proof as
cryptographically valid. -/
theorem C3_mismatched_requirement_rejected_witness :
    (resourceGate [videoRequirement none none] videoDescription ["exact"]
      sampleDecode allowVerify okSettle videoHandler ⟨[]⟩
      cheapRequest).response.status = 402 ∧
    (resourceGate [videoRequirement none none] videoDescription ["exact"]
      sampleDecode allowVerify okSettle videoHandler ⟨[]⟩
      cheapRequest).handlerCalls = 0 :=
  have h := C3_mismatched_requirement_rejected [videoRequirement none none]
    videoDescription ["exact"] sampleDecode allowVerify okSettle videoHandler
    ⟨[]⟩ cheapRequest _ "proof-2" cheapProof rfl rfl (by decide) (by decide)
  ⟨h.1, h.2.1⟩

/-- C1: provided the protected handler never itself answers 402, the gate
invokes the handler exactly once precisely when the request carries a proof
that decodes, references a registered scheme, matches a configured requirement
exactly in scheme, network, asset, amount and recipient, is not a replay of an
already-settled proof, and passes facilitator verification; in that case the
returned response is the handler's, hence not a 402; in every other case the
handler is not invoked at all. -/
theorem C1_handler_iff_verified
    (accepts : List PaymentRequirement) (description : String)
    (knownSchemes : List String) (decode : String → Option PaymentProof)
    (facVerify : PaymentProof → PaymentRequirement → Bool)
    (facSettle : PaymentProof → PaymentRequirement → SettlementResult)
    (handler : Request → Response) (st : ServerState) (req : Request)
    (res : GateResult)
    (hres : res = resourceGate accepts description knownSchemes decode
      facVerify facSettle handler st req)
    (hh : ∀ r, (handler r).status ≠ 402) :
    (res.handlerCalls = 1 ↔
      gateAccepts accepts knownSchemes decode facVerify st req) ∧
    res.handlerCalls ≤ 1 ∧
    (gateAccepts accepts knownSchemes decode facVerify st req →
      res.response.status ≠ 402) := by
  subst hres
  cases hraw : req.proofHeader with
  | none =>
    have hnacc : ¬ gateAccepts accepts knownSchemes decode facVerify st req := by
      rintro ⟨raw', proof', hraw', _, _, _, _, _⟩
      rw [hraw] at hraw'
      exact Option.noConfusion hraw'
    refine ⟨iff_of_false ?_ hnacc, ?_, fun hacc => absurd hacc hnacc⟩ <;>
      simp [resourceGate, hraw, gateReject]
  | some raw =>
    cases hdec : decode raw with
    | none =>
      have hnacc : ¬ gateAccepts accepts knownSchemes decode facVerify st req := by
        rintro ⟨raw', proof', hraw', hdec', _, _, _, _⟩
        rw [hraw] at hraw'
        obtain rfl := Option.some.inj hraw'
        rw [hdec] at hdec'
        exact Option.noConfusion hdec'
      refine ⟨iff_of_false ?_ hnacc, ?_, fun hacc => absurd hacc hnacc⟩ <;>
        simp [resourceGate, hraw, hdec, gateReject]
    | some proof =>
      by_cases hks : proof.scheme ∈ knownSchemes
      · by_cases hmat :
          accepts.any (fun r => reqMatches proof.requirement r) = true
        · by_cases hmem : proof ∈ st.settled
          · have hnacc : ¬ gateAccepts accepts knownSchemes decode facVerify
                st req := by
              rintro ⟨raw', proof', hraw', hdec', _, _, hmem', _⟩
              rw [hraw] at hraw'
              obtain rfl := Option.some.inj hraw'
              rw [hdec] at hdec'
              obtain rfl := Option.some.inj hdec'
              exact hmem' hmem
            refine ⟨iff_of_false ?_ hnacc, ?_, fun hacc => absurd hacc hnacc⟩ <;>
              simp [resourceGate, hraw, hdec, hks, hmat, hmem, gateReject]
          · by_cases hver : facVerify proof proof.requirement = true
            · have hacc : gateAccepts accepts knownSchemes decode facVerify
                  st req := ⟨raw, proof, hraw, hdec, hks, hmat, hmem, hver⟩
              have hcall : (resourceGate accepts description knownSchemes
                  decode facVerify facSettle handler st req).handlerCalls = 1 := by
                simp [resourceGate, hraw, hdec, hks, hmat, hmem, hver]
              have hstat : (resourceGate accepts description knownSchemes
                  decode facVerify facSettle handler st req).response.status =
                  (handler req).status := by
                simp [resourceGate, hraw, hdec, hks, hmat, hmem, hver]
              refine ⟨iff_of_true hcall hacc, by simp [hcall], fun _ => ?_⟩
              rw [hstat]
              exact hh req
            · have hnacc : ¬ gateAccepts accepts knownSchemes decode facVerify
                  st req := by
                rintro ⟨raw', proof', hraw', hdec', _, _, _, hver'⟩
                rw [hraw] at hraw'
                obtain rfl := Option.some.inj hraw'
                rw [hdec] at hdec'
                obtain rfl := Option.some.inj hdec'
                exact hver hver'
              refine ⟨iff_of_false ?_ hnacc, ?_,
                  fun hacc => absurd hacc hnacc⟩ <;>
                simp [resourceGate, hraw, hdec, hks, hmat, hmem, hver,
                  gateReject]
        · have hnacc : ¬ gateAccepts accepts knownSchemes decode facVerify
              st req := by
            rintro ⟨raw', proof', hraw', hdec', _, hmat', _, _⟩
            rw [hraw] at hraw'
            obtain rfl := Option.some.inj hraw'
            rw [hdec] at hdec'
            obtain rfl := Option.some.inj hdec'
            exact hmat hmat'
          refine ⟨iff_of_false ?_ hnacc, ?_, fun hacc => absurd hacc hnacc⟩ <;>
            simp [resourceGate, hraw, hdec, hks, hmat, gateReject]
      · have hnacc : ¬ gateAccepts accepts knownSchemes decode facVerify
            st req := by
          rintro ⟨raw', proof', hraw', hdec', hks', _, _, _⟩
          rw [hraw] at hraw'
          obtain rfl := Option.some.inj hraw'
          rw [hdec] at hdec'
          obtain rfl := Option.some.inj hdec'
          exact hks hks'
        refine ⟨iff_of_false ?_ hnacc, ?_, fun hacc => absurd hacc hnacc⟩ <;>
          simp [resourceGate, hraw, hdec, hks, gateReject]

/-- C1 witness: the route configuration, a proof for the exact configured
requirement, an accepting facilitator and a fresh replay record: the handler
runs exactly once and the response is not a 402. -/
theorem C1_handler_iff_verified_witness :
    (resourceGate [videoRequirement none none] videoDescription ["exact"]
      sampleDecode allowVerify okSettle videoHandler ⟨[]⟩
      payingRequest).handlerCalls = 1 ∧
    (resourceGate [videoRequirement none none] videoDescription ["exact"]
      sampleDecode allowVerify okSettle videoHandler ⟨[]⟩
      payingRequest).response.status ≠ 402 :=
  have hacc : gateAccepts [videoRequirement none none] ["exact"] sampleDecode
      allowVerify ⟨[]⟩ payingRequest :=
    ⟨"proof-1", sampleProof, rfl, by decide, by decide, by decide,
      by decide, rfl⟩
  have h := C1_handler_iff_verified [videoRequirement none none]
    videoDescription ["exact"] sampleDecode allowVerify okSettle videoHandler
    ⟨[]⟩ payingRequest _ rfl (fun r => by simp [videoHandler])
  ⟨h.1.mpr hacc, h.2.2 hacc⟩

set_option linter.unnecessarySeqFocus false in
/-- A single gate pass makes at most one successful settlement. -/
theorem gate_settleSuccesses_le_one
    (accepts : List PaymentRequirement) (description : String)
    (knownSchemes : List String) (decode : String → Option PaymentProof)
    (facVerify : PaymentProof → PaymentRequirement → Bool)
    (facSettle : PaymentProof → PaymentRequirement → SettlementResult)
    (handler : Request → Response) (st : ServerState) (req : Request) :
    (resourceGate accepts description knownSchemes decode facVerify facSettle
      handler st req).settleSuccesses ≤ 1 := by
  cases hraw : req.proofHeader with
  | none => simp [resourceGate, hraw, gateReject]
  | some raw =>
    cases hdec : decode raw with
    | none => simp [resourceGate, hraw, hdec, gateReject]
    | some proof =>
      by_cases hks : proof.scheme ∈ knownSchemes <;>
        by_cases hmat :
          accepts.any (fun r => reqMatches proof.requirement r) = true <;>
        by_cases hmem : proof ∈ st.settled <;>
        by_cases hver : facVerify proof proof.requirement = true <;>
        simp [resourceGate, hraw, hdec, hks, hmat, hmem, hver, gateReject] <;>
        split <;> simp

/-- A gate pass that settled successfully did so for a decoded, registered,
matching proof and recorded that proof at the head of the replay-prevention
record. -/
theorem gate_settle_success_recorded
    (accepts : List PaymentRequirement) (description : String)
    (knownSchemes : List String) (decode : String → Option PaymentProof)
    (facVerify : PaymentProof → PaymentRequirement → Bool)
    (facSettle : PaymentProof → PaymentRequirement → SettlementResult)
    (handler : Request → Response) (st : ServerState) (req : Request)
    (h : (resourceGate accepts description knownSchemes decode facVerify
      facSettle handler st req).settleSuccesses = 1) :
    ∃ raw proof, req.proofHeader = some raw ∧ decode raw = some proof ∧
      proof.scheme ∈ knownSchemes ∧
      accepts.any (fun r => reqMatches proof.requirement r) = true ∧
      (resourceGate accepts description knownSchemes decode facVerify
        facSettle handler st req).state.settled = proof :: st.settled := by
  cases hraw : req.proofHeader with
  | none => simp [resourceGate, hraw, gateReject] at h
  | some raw =>
    cases hdec : decode raw with
    | none => simp [resourceGate, hraw, hdec, gateReject] at h
    | some proof =>
      by_cases hks : proof.scheme ∈ knownSchemes
      · by_cases hmat :
          accepts.any (fun r => reqMatches proof.requirement r) = true
        · by_cases hmem : proof ∈ st.settled
          · simp [resourceGate, hraw, hdec, hks, hmat, hmem, gateReject] at h
          · by_cases hver : facVerify proof proof.requirement = true
            · by_cases hsucc : (facSettle proof proof.requirement).success
              · exact ⟨raw, proof, rfl, hdec, hks, hmat, by
                  simp [resourceGate, hraw, hdec, hks, hmat, hmem, hver,
                    hsucc]⟩
              · simp [resourceGate, hraw, hdec, hks, hmat, hmem, hver,
                  hsucc] at h
            · simp [resourceGate, hraw, hdec, hks, hmat, hmem, hver,
                gateReject] at h
        · simp [resourceGate, hraw, hdec, hks, hmat, gateReject] at h
      · simp [resourceGate, hraw, hdec, hks, gateReject] at h

/-- C4: submitting the same proof twice, the second pass starting from the
state left by the first, yields at most one successful settlement across the
two passes; and whenever the first pass settled successfully, the second pass
is rejected as a replay: status 402 with the already-settled reason, no
handler invocation, no settlement attempt and no settlement. -/
theorem C4_no_double_settlement
    (accepts : List PaymentRequirement) (description : String)
    (knownSchemes : List String) (decode : String → Option PaymentProof)
    (facVerify : PaymentProof → PaymentRequirement → Bool)
    (facSettle : PaymentProof → PaymentRequirement → SettlementResult)
    (handler : Request → Response) (st : ServerState) (req : Request)
    (r1 r2 : GateResult)
    (h1 : r1 = resourceGate accepts description knownSchemes decode facVerify
      facSettle handler st req)
    (h2 : r2 = resourceGate accepts description knownSchemes decode facVerify
      facSettle handler r1.state req) :
    r1.settleSuccesses + r2.settleSuccesses ≤ 1 ∧
    (r1.settleSuccesses = 1 →
      r2.response.status = 402 ∧ r2.handlerCalls = 0 ∧
      r2.settleAttempts = 0 ∧ r2.settleSuccesses = 0 ∧
      r2.response.body = .payment
        { accepts := accepts, description := description }
        (some .alreadySettled)) := by
  subst h1
  subst h2
  by_cases hs : (resourceGate accepts description knownSchemes decode
      facVerify facSettle handler st req).settleSuccesses = 1
  · obtain ⟨raw, proof, hraw, hdec, hks, hmat, hstate⟩ :=
      gate_settle_success_recorded accepts description knownSchemes decode
        facVerify facSettle handler st req hs
    have hmem2 : proof ∈ (resourceGate accepts description knownSchemes
        decode facVerify facSettle handler st req).state.settled := by
      rw [hstate]
      exact List.mem_cons_self _ _
    have hrep : ∀ s1 : ServerState, proof ∈ s1.settled →
        resourceGate accepts description knownSchemes decode facVerify
          facSettle handler s1 req =
        gateReject accepts description .alreadySettled s1 := by
      intro s1 hmem
      simp [resourceGate, hraw, hdec, hks, hmat, hmem]
    rw [hs, hrep _ hmem2]
    exact ⟨by simp [gateReject], fun _ => by
      simp [gateReject, challengeResponse]⟩
  · have hle := gate_settleSuccesses_le_one accepts description knownSchemes
      decode facVerify facSettle handler st req
    have h0 : (resourceGate accepts description knownSchemes decode facVerify
        facSettle handler st req).settleSuccesses = 0 := by omega
    rw [h0]
    refine ⟨?_, fun hcon => absurd hcon (by omega)⟩
    simpa using gate_settleSuccesses_le_one accepts description knownSchemes
      decode facVerify facSettle handler
      (resourceGate accepts description knownSchemes decode facVerify
        facSettle handler st req).state req

/-- C4 witness: the same concrete verified proof submitted twice against the
route configuration: the first pass settles, the second is rejected 402. -/
theorem C4_no_double_settlement_witness :
    (resourceGate [videoRequirement none none] videoDescription ["exact"]
      sampleDecode allowVerify okSettle videoHandler
      ((resourceGate [videoRequirement none none] videoDescription ["exact"]
        sampleDecode allowVerify okSettle videoHandler ⟨[]⟩
        payingRequest).state) payingRequest).response.status = 402 ∧
    (resourceGate [videoRequirement none none] videoDescription ["exact"]
      sampleDecode allowVerify okSettle videoHandler ⟨[]⟩
      payingRequest).settleSuccesses +
    (resourceGate [videoRequirement none none] videoDescription ["exact"]
      sampleDecode allowVerify okSettle videoHandler
      ((resourceGate [videoRequirement none none] videoDescription ["exact"]
        sampleDecode allowVerify okSettle videoHandler ⟨[]⟩
        payingRequest).state) payingRequest).settleSuccesses ≤ 1 :=
  have h := C4_no_double_settlement [videoRequirement none none]
    videoDescription ["exact"] sampleDecode allowVerify okSettle videoHandler
    ⟨[]⟩ payingRequest _ _ rfl rfl
  ⟨(h.2 (by decide)).1, h.1⟩

/-! ## Claims about the PayingFetcher -/

/-- C7: when the initial response is not a 402, the wrapper returns that
response to the caller unchanged, issues exactly one network call and no
proof-bearing retry. -/
theorem C7_non402_passthrough
    (net : Request → Response) (registry : List String)
    (buildProof : PaymentRequirement → Option String) (req : Request)
    (res : FetchResult)
    (hres : res = payingFetcher net registry buildProof req)
    (h : (net req).status ≠ 402) :
    res.outcome = .ok (net req) ∧ res.calls = 1 ∧ res.retried = false := by
  subst hres
  simp [payingFetcher, h]

/-- C7 witness: a network that serves the content immediately with status
200. -/
theorem C7_non402_passthrough_witness :
    (payingFetcher contentNet ["exact"] declineSigner bareRequest).outcome =
      .ok (contentNet bareRequest) ∧
    (payingFetcher contentNet ["exact"] declineSigner bareRequest).calls = 1 :=
  have h := C7_non402_passthrough contentNet ["exact"] declineSigner
    bareRequest _ rfl (by decide)
  ⟨h.1, h.2.1⟩

/-- C6: when the initial response is a 402 whose challenge lists no
requirement with a scheme in the client's registry, the wrapper fails with the
classified unsupported-scheme error and issues no retry and no second network
call. -/
theorem C6_unsupported_scheme_no_retry
    (net : Request → Response) (registry : List String)
    (buildProof : PaymentRequirement → Option String) (req : Request)
    (res : FetchResult) (c : PaymentChallenge) (reason : Option GateFailure)
    (hres : res = payingFetcher net registry buildProof req)
    (h402 : (net req).status = 402)
    (hbody : (net req).body = .payment c reason)
    (hnone : ∀ r ∈ c.accepts, r.scheme ∉ registry) :
    res.outcome = .error .unsupportedScheme ∧ res.calls = 1 ∧
    res.retried = false := by
  subst hres
  have hfind : c.accepts.find? (fun r => decide (r.scheme ∈ registry)) =
      none := by
    rw [List.find?_eq_none]
    intro x hx
    simpa using hnone x hx
  simp [payingFetcher, h402, hbody, hfind]

/-- C6 witness: a 402 challenge advertising only a scheme the client does not
hold. -/
theorem C6_unsupported_scheme_no_retry_witness :
    (payingFetcher altNet ["exact"] declineSigner bareRequest).outcome =
      .error .unsupportedScheme ∧
    (payingFetcher altNet ["exact"] declineSigner bareRequest).calls = 1 :=
  have h := C6_unsupported_scheme_no_retry altNet ["exact"] declineSigner
    bareRequest _
    { accepts := [{ (videoRequirement none none) with scheme := "superfluid" }]
      description := videoDescription }
    none rfl (by decide) (by decide) (by decide)
  ⟨h.1, h.2.1⟩

/-- C5 counterexample: the first response is a 402 whose challenge does list a
scheme supported by the client's registry, yet the signer declines and the
wrapper issues no proof-bearing retry, refuting the claim that such a 402
always leads to exactly one retry. -/
theorem C5_counterexample :
    challengeSupported (cexNet bareRequest) ["exact"] = true ∧
    (payingFetcher cexNet ["exact"] (fun _ => none) bareRequest).retried =
      false ∧
    (payingFetcher cexNet ["exact"] (fun _ => none) bareRequest).calls = 1 ∧
    (payingFetcher cexNet ["exact"] (fun _ => none) bareRequest).outcome =
      .error .signerDeclined := by
  refine ⟨by decide, by decide, by decide, by decide⟩

/-- C5 (amended): the wrapper issues at most two network calls: one plain
call always, and exactly one proof-bearing retry precisely when the first
response is a 402 whose challenge has a requirement with a registry-supported
scheme AND the selected scheme's proof construction succeeds (the signer does
not decline); in that case the retry's response is returned to the caller
verbatim, and no third call ever happens. -/
theorem C5_at_most_two_calls
    (net : Request → Response) (registry : List String)
    (buildProof : PaymentRequirement → Option String) (req : Request)
    (res : FetchResult)
    (hres : res = payingFetcher net registry buildProof req) :
    res.calls ≤ 2 ∧
    (res.retried = true ↔ ((net req).status = 402 ∧
      ∃ c reason chosen praw, (net req).body = .payment c reason ∧
        c.accepts.find? (fun r => decide (r.scheme ∈ registry)) =
          some chosen ∧
        buildProof chosen = some praw)) ∧
    (res.retried = true → res.calls = 2 ∧
      ∃ praw, res.outcome = .ok (net (attachProof req praw))) := by
  subst hres
  by_cases h402 : (net req).status = 402
  · cases hbody : (net req).body with
    | content fs =>
      have hrun : payingFetcher net registry buildProof req =
          { outcome := .error .invalidChallenge, calls := 1,
            retried := false } := by
        simp [payingFetcher, h402, hbody]
      rw [hrun]
      refine ⟨by simp, iff_of_false (by simp) ?_, by simp⟩
      rintro ⟨_, c', r', chosen', praw', hbody', _, _⟩
      exact ResponseBody.noConfusion hbody'
    | payment c reason =>
      cases hfind : c.accepts.find?
          (fun r => decide (r.scheme ∈ registry)) with
      | none =>
        have hrun : payingFetcher net registry buildProof req =
            { outcome := .error .unsupportedScheme, calls := 1,
              retried := false } := by
          simp [payingFetcher, h402, hbody, hfind]
        rw [hrun]
        refine ⟨by simp, iff_of_false (by simp) ?_, by simp⟩
        rintro ⟨_, c', r', chosen', praw', hbody', hfind', _⟩
        obtain ⟨rfl, rfl⟩ := ResponseBody.payment.inj hbody'
        rw [hfind] at hfind'
        exact Option.noConfusion hfind'
      | some chosen =>
        cases hbuild : buildProof chosen with
        | none =>
          have hrun : payingFetcher net registry buildProof req =
              { outcome := .error .signerDeclined, calls := 1,
                retried := false } := by
            simp [payingFetcher, h402, hbody, hfind, hbuild]
          rw [hrun]
          refine ⟨by simp, iff_of_false (by simp) ?_, by simp⟩
          rintro ⟨_, c', r', chosen', praw', hbody', hfind', hbuild'⟩
          obtain ⟨rfl, rfl⟩ := ResponseBody.payment.inj hbody'
          rw [hfind] at hfind'
          obtain rfl := Option.some.inj hfind'
          rw [hbuild] at hbuild'
          exact Option.noConfusion hbuild'
        | some praw =>
          have hrun : payingFetcher net registry buildProof req =
              { outcome := .ok (net (attachProof req praw)), calls := 2,
                retried := true } := by
            simp [payingFetcher, h402, hbody, hfind, hbuild]
          rw [hrun]
          exact ⟨by simp,
            iff_of_true rfl
              ⟨h402, c, reason, chosen, praw, rfl, hfind, hbuild⟩,
            fun _ => ⟨rfl, praw, rfl⟩⟩
  · have hrun : payingFetcher net registry buildProof req =
        { outcome := .ok (net req), calls := 1, retried := false } := by
      simp [payingFetcher, h402]
    rw [hrun]
    refine ⟨by simp, iff_of_false (by simp) ?_, by simp⟩
    rintro ⟨h', _⟩
    exact h402 h'

/-- C5 witness: a compliant signer against the route's challenge: the wrapper
retries exactly once and issues two calls in total. -/
theorem C5_at_most_two_calls_witness :
    (payingFetcher cexNet ["exact"] okSigner bareRequest).calls ≤ 2 ∧
    (payingFetcher cexNet ["exact"] okSigner bareRequest).retried = true :=
  have h := C5_at_most_two_calls cexNet ["exact"] okSigner bareRequest _ rfl
  ⟨h.1, h.2.1.mpr ⟨by decide,
    ⟨{ accepts := [videoRequirement none none],
       description := videoDescription }, none, videoRequirement none none,
      "proof-1", by decide, by decide, rfl⟩⟩⟩

/-- C8 witness: the wire amount of the concrete route requirement is the
atomic string "100000". -/
theorem C8_video_price_amount_witness :
    (videoRequirement none none).maxAmountRequired = "100000" :=
  (C8_video_price_amount.2.2.2.2 none none).trans C8_video_price_amount.1

/-- C9 witness: two distinct concrete requests produce the same handler
response. -/
theorem C9_handler_constant_witness :
    videoHandler bareRequest = videoHandler payingRequest :=
  (C9_handler_constant bareRequest payingRequest).1
